import Mathlib

/-
  Verification of the DashBoard repository's query-safety gateway and
  conversational query-generation pipeline.

  The development shallowly embeds the relevant Python code:
    - SQLAgent._validate_query_safety        (src/langchain_agent.py)
    - SQLAgent._extract_sql_from_response    (src/langchain_agent.py)
    - SQLAgent._format_conversation_context  (src/langchain_agent.py)
    - SQLAgent.generate_sql_query            (src/langchain_agent.py)
    - SQLAgent.execute_query_with_context    (src/langchain_agent.py)
    - SQLAgent.get_default_query_results     (src/langchain_agent.py)
    - SQLAgent.clear_conversation_history    (src/langchain_agent.py)
    - DatabaseManager.__init__ / execute_query (src/database.py)

  Modelling conventions:
    - Python strings are Lean String values; per-character work happens on
      String.data (a List Char).  Python str.upper is modelled by
      Char.toUpper (ASCII), Python str.strip by trimming Char.isWhitespace
      at both ends, and the regex word class \w by ASCII alphanumerics
      plus underscore.
    - A Python function that may raise is modelled as returning
      Except String A; Except.error e means the function terminates by
      raising an exception whose text is e.
    - The pandas DataFrame is abstracted to a list of rows (row contents
      never matter to the claims, only the row count).
    - The language-model call self.llm(self.system_prompt.format(context,
      question)) is modelled as a pluggable function of the pair
      (context, question); the literal prompt text never influences any
      claim.  The database engine behind pandas.read_sql_query is a
      pluggable backend function from the statement string to a result.
-/

namespace DashBoard

/-- Word characters for the regex word boundary used in the forbidden
keyword patterns (ASCII model of \w): letters, digits, underscore. -/
def isWordChar (c : Char) : Bool :=
  c.isAlphanum || c == '_'

/-- A word boundary holds next to an absent character (string edge) or a
non-word character. -/
def boundaryOk : Option Char → Bool
  | none => true
  | some c => !(isWordChar c)

/-- Boundary condition on the characters following a keyword occurrence. -/
def afterOk : List Char → Bool
  | [] => true
  | c :: _ => !(isWordChar c)

/-- Does the pattern occur as a whole word starting exactly here, given the
character immediately before this position (none at the string start)? -/
def wordAt (pat s : List Char) (prev : Option Char) : Bool :=
  boundaryOk prev && pat.isPrefixOf s && afterOk (s.drop pat.length)

/-- Scan the remaining characters for a whole-word occurrence of the
pattern, threading the previously consumed character. -/
def scanFrom (pat : List Char) (prev : Option Char) : List Char → Bool
  | [] => wordAt pat [] prev
  | c :: cs => wordAt pat (c :: cs) prev || scanFrom pat (some c) cs

/-- Model of re.search with the pattern \bKEYWORD\b: is there a whole-word
occurrence of pat anywhere in s? -/
def containsWholeWord (pat s : List Char) : Bool :=
  scanFrom pat none s

/-- Model of Python str.strip: drop whitespace at both ends. -/
def trimChars (s : List Char) : List Char :=
  ((s.dropWhile Char.isWhitespace).reverse.dropWhile Char.isWhitespace).reverse

/-- Model of Python str.upper (ASCII). -/
def upperChars (s : List Char) : List Char :=
  s.map Char.toUpper

/-- Normalization performed in SQLAgent._validate_query_safety:
query.upper().strip(). -/
def normValidate (q : String) : List Char :=
  trimChars (upperChars q.data)

/-- Normalization performed in DatabaseManager.execute_query:
query.strip().upper(). -/
def normDb (q : String) : List Char :=
  upperChars (trimChars q.data)

/-- The fixed forbidden keyword list, in the order the source iterates the
regex patterns (both files use the same list). -/
def forbiddenKeywords : List String :=
  ["INSERT", "UPDATE", "DELETE", "DROP", "CREATE", "ALTER", "TRUNCATE",
   "GRANT", "REVOKE", "EXEC", "EXECUTE"]

/-- The first forbidden keyword (in source order) occurring as a whole word
in the normalized query, if any; models the for-loop over
forbidden_patterns with re.search. -/
def firstForbidden (qn : List Char) : Option String :=
  forbiddenKeywords.find? (fun kw => containsWholeWord kw.data qn)

/-- Rejection message raised by SQLAgent._validate_query_safety for a
forbidden keyword. -/
def forbiddenMsg (kw : String) : String :=
  "Query contains forbidden keyword: " ++ kw

/-- allowed_starts in SQLAgent._validate_query_safety. -/
def allowedStarts : List String :=
  ["SELECT", "WITH"]

/-- Does the normalized query start with one of the allowed leading
tokens? -/
def startsWithAllowed (qn : List Char) : Bool :=
  allowedStarts.any (fun s => s.data.isPrefixOf qn)

/-- Embedding of SQLAgent._validate_query_safety: reject on the first
forbidden keyword found as a whole word in the uppercased, trimmed query,
otherwise reject unless the query starts with SELECT or WITH.
Except.error e models the Python ValueError(e). -/
def validateQuerySafety (q : String) : Except String Unit :=
  match firstForbidden (normValidate q) with
  | some kw => Except.error (forbiddenMsg kw)
  | none =>
    if startsWithAllowed (normValidate q) then Except.ok ()
    else Except.error "Query must start with SELECT or WITH"

/-- Connection configuration as read by get_db_config in src/database.py.
The three required fields are optional strings: none models an absent
environment variable, some "" an empty one. -/
structure DbConfig where
  host : String
  port : Nat
  database : Option String
  user : Option String
  password : Option String
  sslmode : String
deriving DecidableEq

/-- Python truthiness of an optional string: falsy when absent or empty. -/
def truthy : Option String → Bool
  | none => false
  | some s => !s.data.isEmpty

/-- required_fields in DatabaseManager.__init__. -/
def requiredFields : List String :=
  ["database", "user", "password"]

/-- Lookup of a required configuration field by name, modelling
self.db_config.get(field). -/
def fieldValue (c : DbConfig) : String → Option String
  | "database" => c.database
  | "user" => c.user
  | "password" => c.password
  | _ => none

/-- missing_fields computed in DatabaseManager.__init__. -/
def missingFields (c : DbConfig) : List String :=
  requiredFields.filter (fun f => !truthy (fieldValue c f))

/-- is_configured flag set in DatabaseManager.__init__: true exactly when
no required field is missing. -/
def isConfiguredOf (c : DbConfig) : Bool :=
  (missingFields c).isEmpty

/-- Query results, abstracting the pandas DataFrame to its list of rows. -/
abbrev Table := List Nat

/-- Error message raised by DatabaseManager.execute_query when the manager
is not configured. -/
def configErrMsg : String :=
  "Database not configured. Please check your environment variables or Streamlit secrets."

/-- Rejection message raised by DatabaseManager.execute_query for a
forbidden keyword (note the extra suffix compared to the validator). -/
def dbForbiddenMsg (kw : String) : String :=
  "Query contains forbidden keyword: " ++ kw ++ ". Only read-only operations allowed."

/-- Embedding of DatabaseManager.execute_query (params = None).  backend
models the database engine behind pandas.read_sql_query: it receives the
statement string and yields rows or a backend error.  The configuration
guard runs first, then the forbidden-keyword scan on the trimmed,
uppercased statement; a statement passing both is submitted to the
backend unchanged.  There is no SELECT/WITH leading-token check here. -/
def executeQuery (c : DbConfig) (backend : String → Except String Table)
    (query : String) : Except String Table :=
  if !(isConfiguredOf c) then Except.error configErrMsg
  else
    match firstForbidden (normDb query) with
    | some kw => Except.error (dbForbiddenMsg kw)
    | none => backend query

/-- One element of SQLAgent.conversation_history, the Conversation Entry of
the spec: question, generated SQL (empty when a failure was recorded),
outcome text, and row count. -/
structure Exchange where
  question : String
  sql_query : String
  response : String
  result_count : Nat
deriving DecidableEq

/-- Model of the Python slice s[:n] (by code points). -/
def strTake (n : Nat) (s : String) : String :=
  String.mk (s.data.take n)

/-- Model of Python str.strip on a whole string. -/
def pyStrip (s : String) : String :=
  String.mk (trimChars s.data)

/-- Model of the Python slice l[-n:]: the last n elements (all of them when
the list is shorter). -/
def lastN (n : Nat) (l : List α) : List α :=
  l.drop (l.length - n)

/-- Model of sep.join(parts). -/
def joinWith (sep : String) : List String → String
  | [] => ""
  | [s] => s
  | s :: rest => s ++ sep ++ joinWith sep rest

/-- Header line rendered per exchange in _format_conversation_context. -/
def headerPart (i : Nat) : String :=
  "Exchange " ++ toString i ++ ":"

/-- User line rendered per exchange in _format_conversation_context (the
question is not truncated). -/
def userPart (e : Exchange) : String :=
  "  User: " ++ e.question

/-- Assistant line rendered per exchange in _format_conversation_context:
the prior outcome text cut at 200 characters with "..." appended
unconditionally. -/
def assistantPart (e : Exchange) : String :=
  "  Assistant: " ++ strTake 200 e.response ++ "..."

/-- The context_parts list built by the loop in
_format_conversation_context, starting the enumeration at i. -/
def contextPartsFrom (i : Nat) : List Exchange → List String
  | [] => []
  | e :: rest => headerPart i :: userPart e :: assistantPart e :: contextPartsFrom (i + 1) rest

/-- Embedding of SQLAgent._format_conversation_context: canonical text on
an empty history, otherwise the last three exchanges rendered and joined
with newlines. -/
def formatConversationContext (hist : List Exchange) : String :=
  if hist.isEmpty then "No previous conversation."
  else joinWith "\n" (contextPartsFrom 1 (lastN 3 hist))

/-- Embedding of SQLAgent.clear_conversation_history on the history
component: the history becomes empty. -/
def clearConversationHistory (_hist : List Exchange) : List Exchange :=
  []

/-- Model of Python response.split on a newline separator: at least one
piece is always produced. -/
def splitOnNewline : List Char → List (List Char)
  | [] => [[]]
  | c :: cs =>
    let rest := splitOnNewline cs
    if c = '\n' then [] :: rest
    else
      match rest with
      | [] => [[c]]
      | l :: ls => (c :: l) :: ls

/-- Lines of a string, as Python text.split with a newline separator. -/
def splitLines (s : String) : List String :=
  (splitOnNewline s.data).map String.mk

/-- The tuple of leading keywords tested with startswith in
_extract_sql_from_response. -/
def sqlStartKeywords : List String :=
  ["SELECT", "WITH", "FROM", "WHERE", "GROUP", "ORDER", "HAVING"]

/-- The keywords tested with the containment operator in
_extract_sql_from_response (note: a strict subset of the start list plus
JOIN). -/
def sqlContainKeywords : List String :=
  ["SELECT", "FROM", "WHERE", "JOIN"]

/-- Model of the Python substring test pat in s. -/
def containsSubstr (pat : List Char) : List Char → Bool
  | [] => pat.isEmpty
  | c :: cs => pat.isPrefixOf (c :: cs) || containsSubstr pat cs

/-- The per-line test in _extract_sql_from_response, applied to the
stripped line: nonempty, and either the uppercased line starts with one of
the seven start keywords or it contains one of the four containment
keywords. -/
def isSqlLine (stripped : String) : Bool :=
  !stripped.data.isEmpty &&
    (sqlStartKeywords.any (fun k => k.data.isPrefixOf (upperChars stripped.data)) ||
      sqlContainKeywords.any (fun k => containsSubstr k.data (upperChars stripped.data)))

/-- The sql_lines list collected by the loop in
_extract_sql_from_response: each line of the stripped response is
stripped, and kept when it passes the per-line test. -/
def keptSqlLines (response : String) : List String :=
  (splitLines (pyStrip response)).filterMap (fun l =>
    if isSqlLine (pyStrip l) then some (pyStrip l) else none)

/-- Embedding of SQLAgent._extract_sql_from_response: join the kept lines
with single spaces, or fall back to the whole stripped response when no
line qualifies. -/
def extractSqlFromResponse (response : String) : String :=
  match keptSqlLines response with
  | [] => pyStrip response
  | ls => joinWith " " ls

/-- Embedding of SQLAgent.generate_sql_query.  llm models the composition
of prompt formatting and the language-model call as a function of the
conversation context and the question (the only inputs of
self.system_prompt.format that vary); the candidate statement extracted
from its response must pass the safety validation or the function
raises. -/
def generateSqlQuery (llm : String → String → String) (hist : List Exchange)
    (question : String) : Except String String :=
  let context := formatConversationContext hist
  let response := llm context question
  let query := extractSqlFromResponse response
  match validateQuerySafety query with
  | Except.error e => Except.error e
  | Except.ok _ => Except.ok query

/-- Outcome text recorded on success in execute_query_with_context. -/
def successResponse (n : Nat) : String :=
  "Query executed successfully, returned " ++ toString n ++ " rows"

/-- Outcome text recorded on failure in execute_query_with_context. -/
def failureResponse (e : String) : String :=
  "Failed to execute query: " ++ e

/-- Embedding of SQLAgent.execute_query_with_context.  Returns the call
outcome together with the updated conversation history.  On any stage
failure the except block records an entry with empty sql_query, the
failure text as outcome, and zero row count, and then re-raises the
original exception: the Except.error component models that re-raise. -/
def executeQueryWithContext (llm : String → String → String) (cfg : DbConfig)
    (backend : String → Except String Table) (hist : List Exchange)
    (question : String) : Except String Table × List Exchange :=
  match generateSqlQuery llm hist question with
  | Except.error e =>
    (Except.error e, hist ++ [⟨question, "", failureResponse e, 0⟩])
  | Except.ok sql =>
    match executeQuery cfg backend sql with
    | Except.error e =>
      (Except.error e, hist ++ [⟨question, "", failureResponse e, 0⟩])
    | Except.ok df =>
      (Except.ok df, hist ++ [⟨question, sql, successResponse df.length, df.length⟩])

/-- The fixed canned analytic query of SQLAgent.get_default_query_results,
verbatim from the source. -/
def defaultQuery : String :=
  "\n        WITH daily_prompts AS (\n            SELECT ph.user_id, DATE_TRUNC('day', ph.created_at) AS prompt_date, COUNT(ph.prompt_id) AS prompts_per_day\n            FROM prompt_history ph\n            WHERE ph.user_id NOT IN (329, 136)\n            GROUP BY ph.user_id, DATE_TRUNC('day', ph.created_at)\n        ),\n        user_avg_prompts AS (\n            SELECT dp.user_id, AVG(dp.prompts_per_day) AS avg_prompts_per_day, SUM(dp.prompts_per_day) AS total_prompts, COUNT(dp.prompt_date) AS total_days\n            FROM daily_prompts dp\n            GROUP BY dp.user_id\n        ),\n        user_details AS (\n            SELECT u.user_id, u.name, u.email, u.created_at\n            FROM usertable u\n            WHERE u.user_id NOT IN (329, 136)\n        )\n        SELECT\n            ud.user_id,\n            ud.name,\n            ud.email,\n            ud.created_at,\n            uap.avg_prompts_per_day,\n            uap.total_prompts,\n            uap.total_days,\n            ROUND(uap.total_prompts / 30.0, 2) AS calculated_avg_prompts_per_day\n        FROM user_details ud\n        JOIN user_avg_prompts uap ON ud.user_id = uap.user_id\n        ORDER BY ud.user_id;\n        "

/-- Embedding of SQLAgent.get_default_query_results: the canned query is
handed directly to DatabaseManager.execute_query; no SQLAgent safety
validation runs on this path. -/
def getDefaultQueryResults (cfg : DbConfig)
    (backend : String → Except String Table) : Except String Table :=
  executeQuery cfg backend defaultQuery

/-- A configured connection used by concrete witnesses. -/
def sampleConfig : DbConfig :=
  ⟨"localhost", 5432, some "mydb", some "dbuser", some "secret", "prefer"⟩

/-- The character preceding the current scan position after consuming pre,
starting from prev. -/
def lastOr (prev : Option Char) : List Char → Option Char
  | [] => prev
  | c :: cs => lastOr (some c) cs

/-- Specification-level whole-word occurrence: the pattern appears with a
non-word character (or the string edge) on each side. -/
def occursWholeWord (pat s : List Char) : Prop :=
  ∃ pre post, s = pre ++ pat ++ post ∧
    boundaryOk pre.getLast? = true ∧ boundaryOk post.head? = true

theorem isPrefixOf_true_iff (p : List Char) : ∀ l : List Char,
    p.isPrefixOf l = true ↔ ∃ t, p ++ t = l := by
  induction p with
  | nil => intro l; simp [List.isPrefixOf]
  | cons a as ih =>
    intro l
    cases l with
    | nil => simp [List.isPrefixOf]
    | cons b bs =>
      simp only [List.isPrefixOf, Bool.and_eq_true, beq_iff_eq, ih bs,
        List.cons_append, List.cons.injEq]
      constructor
      · rintro ⟨rfl, t, rfl⟩
        exact ⟨t, rfl, rfl⟩
      · rintro ⟨t, rfl, rfl⟩
        exact ⟨rfl, t, rfl⟩

theorem afterOk_eq_boundaryOk_head (post : List Char) :
    afterOk post = boundaryOk post.head? := by
  cases post <;> rfl

theorem wordAt_true_iff (pat s : List Char) (prev : Option Char) :
    wordAt pat s prev = true ↔
      boundaryOk prev = true ∧ ∃ post, s = pat ++ post ∧ afterOk post = true := by
  unfold wordAt
  simp only [Bool.and_eq_true, isPrefixOf_true_iff]
  constructor
  · rintro ⟨⟨hb, t, rfl⟩, hafter⟩
    refine ⟨hb, t, rfl, ?_⟩
    simpa [List.drop_left] using hafter
  · rintro ⟨hb, post, rfl, hafter⟩
    exact ⟨⟨hb, post, rfl⟩, by simpa [List.drop_left] using hafter⟩

theorem scanFrom_true_iff (pat : List Char) (hpat : pat ≠ []) :
    ∀ (s : List Char) (prev : Option Char),
      scanFrom pat prev s = true ↔
        ∃ pre post, s = pre ++ pat ++ post ∧
          boundaryOk (lastOr prev pre) = true ∧ afterOk post = true := by
  intro s
  induction s with
  | nil =>
    intro prev
    simp only [scanFrom, wordAt_true_iff]
    constructor
    · rintro ⟨_, post, h, _⟩
      exact absurd (List.append_eq_nil.mp h.symm).1 hpat
    · rintro ⟨pre, post, h, _, _⟩
      rcases List.append_eq_nil.mp (List.append_eq_nil.mp h.symm).1 with ⟨-, h2⟩
      exact absurd h2 hpat
  | cons c cs ih =>
    intro prev
    simp only [scanFrom, Bool.or_eq_true, wordAt_true_iff, ih (some c)]
    constructor
    · rintro (⟨hb, post, heq, ha⟩ | ⟨pre, post, heq, hb, ha⟩)
      · exact ⟨[], post, by simpa using heq, hb, ha⟩
      · exact ⟨c :: pre, post, by simp [heq], hb, ha⟩
    · rintro ⟨pre, post, heq, hb, ha⟩
      cases pre with
      | nil =>
        exact Or.inl ⟨hb, post, by simpa using heq, ha⟩
      | cons c' pre' =>
        simp only [List.cons_append, List.cons.injEq] at heq
        rcases heq with ⟨rfl, hcs⟩
        exact Or.inr ⟨pre', post, hcs, hb, ha⟩

theorem lastOr_none_eq_getLast? (pre : List Char) :
    ∀ prev, lastOr prev pre = (match pre.getLast? with
      | some c => some c
      | none => prev) := by
  induction pre with
  | nil => intro prev; rfl
  | cons c cs ih =>
    intro prev
    cases cs with
    | nil => rfl
    | cons c' cs' =>
      have hne : (c' :: cs').getLast?.isSome := by simp
      rcases Option.isSome_iff_exists.mp hne with ⟨y, hy⟩
      show lastOr (some c) (c' :: cs') = _
      rw [ih (some c), List.getLast?_cons_cons, hy]

theorem containsWholeWord_true_iff (pat s : List Char) (hpat : pat ≠ []) :
    containsWholeWord pat s = true ↔ occursWholeWord pat s := by
  unfold containsWholeWord occursWholeWord
  rw [scanFrom_true_iff pat hpat s none]
  refine exists_congr fun pre => exists_congr fun post => ?_
  rw [lastOr_none_eq_getLast? pre none, afterOk_eq_boundaryOk_head]
  cases pre.getLast? <;> exact Iff.rfl

theorem containsSubstr_true_iff (pat : List Char) : ∀ s : List Char,
    containsSubstr pat s = true ↔ ∃ pre post, s = pre ++ pat ++ post := by
  intro s
  induction s with
  | nil =>
    simp only [containsSubstr, List.isEmpty_iff]
    constructor
    · rintro rfl
      exact ⟨[], [], rfl⟩
    · rintro ⟨pre, post, h⟩
      exact (List.append_eq_nil.mp (List.append_eq_nil.mp h.symm).1).2
  | cons c cs ih =>
    simp only [containsSubstr, Bool.or_eq_true, isPrefixOf_true_iff, ih]
    constructor
    · rintro (⟨t, ht⟩ | ⟨pre, post, hcs⟩)
      · exact ⟨[], t, by simp [ht]⟩
      · exact ⟨c :: pre, post, by simp [hcs]⟩
    · rintro ⟨pre, post, heq⟩
      cases pre with
      | nil => exact Or.inl ⟨post, by simpa using heq.symm⟩
      | cons c' pre' =>
        simp only [List.cons_append, List.cons.injEq] at heq
        rcases heq with ⟨rfl, hcs⟩
        exact Or.inr ⟨pre', post, hcs⟩

set_option maxRecDepth 40000

/-- C1: the safety classification rejects a statement on the
forbidden-keyword scan exactly when one of the fixed forbidden keywords
occurs as a whole word (any letter case, hence on the uppercased trimmed
text) anywhere in the statement, and the rejection reason names that
keyword; an occurrence only as a substring of a longer identifier does not
trigger rejection, since occursWholeWord demands a non-word character or
the string edge on both sides of the keyword. -/
theorem c1_forbidden_keyword_scan (q : String) :
    ((∃ kw, kw ∈ forbiddenKeywords ∧ occursWholeWord kw.data (normValidate q)) ↔
      (∃ kw, kw ∈ forbiddenKeywords ∧
        validateQuerySafety q = Except.error (forbiddenMsg kw))) ∧
    (∀ kw, kw ∈ forbiddenKeywords →
      validateQuerySafety q = Except.error (forbiddenMsg kw) →
      occursWholeWord kw.data (normValidate q)) := by
  have hne : ∀ kw ∈ forbiddenKeywords, kw.data ≠ [] := by decide
  have hmsg : ∀ kw ∈ forbiddenKeywords,
      forbiddenMsg kw ≠ "Query must start with SELECT or WITH" := by decide
  have hinj : ∀ a ∈ forbiddenKeywords, ∀ b ∈ forbiddenKeywords,
      forbiddenMsg a = forbiddenMsg b → a = b := by decide
  constructor
  · constructor
    · rintro ⟨kw, hmem, hocc⟩
      have hfind : (forbiddenKeywords.find?
          (fun kw => containsWholeWord kw.data (normValidate q))).isSome := by
        rw [List.find?_isSome]
        exact ⟨kw, hmem, (containsWholeWord_true_iff _ _ (hne kw hmem)).mpr hocc⟩
      rcases Option.isSome_iff_exists.mp hfind with ⟨kw₀, hkw₀⟩
      have hff : firstForbidden (normValidate q) = some kw₀ := hkw₀
      refine ⟨kw₀, List.mem_of_find?_eq_some hkw₀, ?_⟩
      simp [validateQuerySafety, hff]
    · rintro ⟨kw, hmem, heq⟩
      cases hfind : firstForbidden (normValidate q) with
      | none =>
        cases hs : startsWithAllowed (normValidate q) with
        | true => simp [validateQuerySafety, hfind, hs] at heq
        | false =>
          simp [validateQuerySafety, hfind, hs] at heq
          exact absurd heq.symm (hmsg kw hmem)
      | some kw₀ =>
        have hmem₀ : kw₀ ∈ forbiddenKeywords := List.mem_of_find?_eq_some hfind
        have hc : containsWholeWord kw₀.data (normValidate q) = true := by
          simpa using List.find?_some hfind
        exact ⟨kw₀, hmem₀, (containsWholeWord_true_iff _ _ (hne kw₀ hmem₀)).mp hc⟩
  · intro kw hmem heq
    cases hfind : firstForbidden (normValidate q) with
    | none =>
      cases hs : startsWithAllowed (normValidate q) with
      | true => simp [validateQuerySafety, hfind, hs] at heq
      | false =>
        simp [validateQuerySafety, hfind, hs] at heq
        exact absurd heq.symm (hmsg kw hmem)
    | some kw₀ =>
      have hmem₀ : kw₀ ∈ forbiddenKeywords := List.mem_of_find?_eq_some hfind
      have hc : containsWholeWord kw₀.data (normValidate q) = true := by
        simpa using List.find?_some hfind
      simp only [validateQuerySafety, hfind, Except.error.injEq] at heq
      have hk : kw₀ = kw := hinj kw₀ hmem₀ kw hmem heq
      subst hk
      exact (containsWholeWord_true_iff _ _ (hne kw₀ hmem₀)).mp hc

/-- Witness for C1 at concrete inputs: a whole-word DROP is rejected with
a reason naming DROP, while the keyword INSERT occurring only inside the
identifier insertions does not trigger rejection. -/
theorem c1_forbidden_keyword_scan_witness :
    (∃ kw, kw ∈ forbiddenKeywords ∧
      validateQuerySafety "SELECT * FROM t; DROP TABLE t" =
        Except.error (forbiddenMsg kw)) ∧
    validateQuerySafety "SELECT * FROM insertions" = Except.ok () := by
  constructor
  · exact (c1_forbidden_keyword_scan "SELECT * FROM t; DROP TABLE t").1.mp
      ⟨"DROP", by decide,
        ⟨"SELECT * FROM T; ".data, " TABLE T".data, by decide, by decide, by decide⟩⟩
  · rfl

/-- C2: whenever the candidate SQL extracted from the language-model
response fails the safety validation, the gateway result is that rejection
with the failure recorded, and it is entirely independent of the database
configuration and backend — the execute path is never reached. -/
theorem c2_rejected_statement_never_executed (llm : String → String → String)
    (hist : List Exchange) (question : String) (e : String)
    (h : validateQuerySafety
      (extractSqlFromResponse (llm (formatConversationContext hist) question)) =
        Except.error e) :
    ∀ (cfg cfg₂ : DbConfig) (backend backend₂ : String → Except String Table),
      executeQueryWithContext llm cfg backend hist question =
        (Except.error e, hist ++ [⟨question, "", failureResponse e, 0⟩]) ∧
      executeQueryWithContext llm cfg backend hist question =
        executeQueryWithContext llm cfg₂ backend₂ hist question := by
  intro cfg cfg₂ backend backend₂
  have hg : generateSqlQuery llm hist question = Except.error e := by
    simp [generateSqlQuery, h]
  constructor
  · simp [executeQueryWithContext, hg]
  · simp [executeQueryWithContext, hg]

/-- Witness for C2: a stub backend answering every prompt with a DELETE
statement is rejected, and the database backend is never consulted (two
different backends yield the same outcome). -/
theorem c2_rejected_statement_never_executed_witness :
    executeQueryWithContext (fun _ _ => "DELETE FROM usertable") sampleConfig
        (fun _ => Except.ok [1]) [] "delete everyone" =
      (Except.error (forbiddenMsg "DELETE"),
        [⟨"delete everyone", "", failureResponse (forbiddenMsg "DELETE"), 0⟩]) ∧
    executeQueryWithContext (fun _ _ => "DELETE FROM usertable") sampleConfig
        (fun _ => Except.ok [1]) [] "delete everyone" =
      executeQueryWithContext (fun _ _ => "DELETE FROM usertable")
        ⟨"h", 0, none, none, none, "prefer"⟩ (fun _ => Except.error "down") []
        "delete everyone" :=
  c2_rejected_statement_never_executed (fun _ _ => "DELETE FROM usertable") []
    "delete everyone" (forbiddenMsg "DELETE") rfl sampleConfig
    ⟨"h", 0, none, none, none, "prefer"⟩ (fun _ => Except.ok [1])
    (fun _ => Except.error "down")

/-- C3: a statement whose normalized text does not begin with SELECT or
WITH is always rejected, and when it contains no forbidden keyword the
rejection reason is the leading-token message. -/
theorem c3_must_start_with_select_or_with (q : String)
    (h : startsWithAllowed (normValidate q) = false) :
    (∃ e, validateQuerySafety q = Except.error e) ∧
    (firstForbidden (normValidate q) = none →
      validateQuerySafety q = Except.error "Query must start with SELECT or WITH") := by
  constructor
  · cases hfind : firstForbidden (normValidate q) with
    | none =>
      exact ⟨"Query must start with SELECT or WITH",
        by simp [validateQuerySafety, hfind, h]⟩
    | some kw => exact ⟨forbiddenMsg kw, by simp [validateQuerySafety, hfind]⟩
  · intro hfind
    simp [validateQuerySafety, hfind, h]

/-- Witness for C3 at a concrete input containing no forbidden keyword. -/
theorem c3_must_start_with_select_or_with_witness :
    validateQuerySafety "DO something" =
      Except.error "Query must start with SELECT or WITH" :=
  (c3_must_start_with_select_or_with "DO something" (by decide)).2 (by decide)

/-- Counterexample to C4: with the system configured, the Connection
Manager does NOT submit every statement unchanged — it performs its own
forbidden-keyword classification.  On the concrete statement
INSERT INTO t VALUES (1), a backend that would return a row is never
consulted: executeQuery raises the keyword rejection instead of returning
the backend result. -/
theorem c4_counterexample :
    executeQuery sampleConfig (fun _ => Except.ok [7]) "INSERT INTO t VALUES (1)" =
      Except.error (dbForbiddenMsg "INSERT") := rfl

/-- C4 amended: with the system configured, DatabaseManager.execute_query
performs exactly one safety classification — the whole-word
forbidden-keyword scan — and submits to the backend, unchanged, every
statement that passes that scan; in particular there is no SELECT/WITH
leading-token check in this component. -/
theorem c4_execute_query_scan_then_unchanged (cfg : DbConfig)
    (backend : String → Except String Table) (q : String)
    (hc : isConfiguredOf cfg = true)
    (hk : firstForbidden (normDb q) = none) :
    executeQuery cfg backend q = backend q := by
  simp [executeQuery, hc, hk]

/-- Witness for amended C4: a configured manager hands the statement
SHOW TABLES — which fails the validator leading-token check but contains
no forbidden keyword — unchanged to the backend. -/
theorem c4_execute_query_scan_then_unchanged_witness :
    executeQuery sampleConfig (fun s => Except.ok [s.data.length]) "SHOW TABLES" =
      Except.ok [11] ∧
    startsWithAllowed (normValidate "SHOW TABLES") = false :=
  ⟨(c4_execute_query_scan_then_unchanged sampleConfig
      (fun s => Except.ok [s.data.length]) "SHOW TABLES" (by decide) rfl).trans rfl,
    by decide⟩

/-- Counterexample to C5: the canned default-query path does not pass
through the full Safety Validator classification.  The guard it actually
runs — the Connection Manager scan — accepts the statement SHOW TABLES,
which the full Safety Validator rejects on the SELECT/WITH leading-token
check; so the classification on the executed path lacks the leading-token
check the claim asserts.  The first conjunct pins down the executed path:
the canned query reaches the backend directly through executeQuery. -/
theorem c5_counterexample :
    getDefaultQueryResults sampleConfig (fun _ => Except.ok [1]) = Except.ok [1] ∧
    executeQuery sampleConfig (fun _ => Except.ok [1]) "SHOW TABLES" = Except.ok [1] ∧
    validateQuerySafety "SHOW TABLES" =
      Except.error "Query must start with SELECT or WITH" :=
  ⟨rfl, rfl, rfl⟩

/-- C5 amended: the canned analytic query bypasses the Query Generator and
also bypasses SQLAgent._validate_query_safety; it passes only through the
Connection Manager forbidden-keyword scan before being executed unchanged.
Incidentally the canned query would also satisfy the full validator: it
classifies as safe (it starts with WITH and no forbidden keyword occurs as
a whole word). -/
theorem c5_default_query_scan_only (cfg : DbConfig)
    (backend : String → Except String Table)
    (hc : isConfiguredOf cfg = true) :
    getDefaultQueryResults cfg backend = backend defaultQuery ∧
    validateQuerySafety defaultQuery = Except.ok () := by
  have hk : firstForbidden (normDb defaultQuery) = none := rfl
  refine ⟨?_, rfl⟩
  simp [getDefaultQueryResults, executeQuery, hc, hk]

/-- Witness for amended C5 on a concrete configured manager and backend. -/
theorem c5_default_query_scan_only_witness :
    getDefaultQueryResults sampleConfig (fun _ => Except.ok [3]) = Except.ok [3] ∧
    validateQuerySafety defaultQuery = Except.ok () :=
  have h := c5_default_query_scan_only sampleConfig (fun _ => Except.ok [3]) (by decide)
  ⟨h.1.trans rfl, h.2⟩

/-- Counterexample to C6: on a concrete stage failure the gateway does not
return a typed result — it re-raises.  The first component Except.error
models execute_query_with_context terminating by raise, i.e. the failure
escapes the gateway as an exception (the callers in the presentation layer
catch it); the failure IS recorded in the history with zero row count, but
the "returned to the caller as a typed result rather than escaping as an
unhandled exception" part of the claim is false. -/
theorem c6_counterexample :
    executeQueryWithContext (fun _ _ => "DELETE FROM usertable") sampleConfig
        (fun _ => Except.ok [1]) [] "delete all users" =
      (Except.error (forbiddenMsg "DELETE"),
        [⟨"delete all users", "", failureResponse (forbiddenMsg "DELETE"), 0⟩]) := rfl

/-- C6 amended: every stage failure (generation, validation or execution)
is caught at the execute_query_with_context boundary and recorded as a
Conversation Entry with empty generated SQL, zero row count, and the error
text (prefixed by the fixed failure wording) as outcome summary — but the
original exception is then re-raised to the caller rather than returned as
a typed result. -/
theorem c6_failures_recorded_then_reraised (llm : String → String → String)
    (cfg : DbConfig) (backend : String → Except String Table)
    (hist : List Exchange) (question e : String)
    (h : (executeQueryWithContext llm cfg backend hist question).1 = Except.error e) :
    (executeQueryWithContext llm cfg backend hist question).2 =
      hist ++ [⟨question, "", failureResponse e, 0⟩] := by
  cases hg : generateSqlQuery llm hist question with
  | error e' =>
    have hrw : executeQueryWithContext llm cfg backend hist question =
        (Except.error e', hist ++ [⟨question, "", failureResponse e', 0⟩]) := by
      simp [executeQueryWithContext, hg]
    rw [hrw] at h ⊢
    have he : e' = e := by simpa using h
    subst he
    rfl
  | ok sql =>
    cases hx : executeQuery cfg backend sql with
    | error e' =>
      have hrw : executeQueryWithContext llm cfg backend hist question =
          (Except.error e', hist ++ [⟨question, "", failureResponse e', 0⟩]) := by
        simp [executeQueryWithContext, hg, hx]
      rw [hrw] at h ⊢
      have he : e' = e := by simpa using h
      subst he
      rfl
    | ok df =>
      have hrw : executeQueryWithContext llm cfg backend hist question =
          (Except.ok df, hist ++ [⟨question, sql, successResponse df.length, df.length⟩]) := by
        simp [executeQueryWithContext, hg, hx]
      rw [hrw] at h
      simp at h

/-- Witness for amended C6: a validation failure is recorded with zero row
count and the failure text before the exception propagates. -/
theorem c6_failures_recorded_then_reraised_witness :
    (executeQueryWithContext (fun _ _ => "SELECT 1; DROP TABLE t") sampleConfig
        (fun _ => Except.ok []) [] "cleanup").2 =
      [⟨"cleanup", "", failureResponse (forbiddenMsg "DROP"), 0⟩] :=
  c6_failures_recorded_then_reraised (fun _ _ => "SELECT 1; DROP TABLE t")
    sampleConfig (fun _ => Except.ok []) [] "cleanup" (forbiddenMsg "DROP") rfl

/-- The eight keywords named by the claim for C7. -/
def claimSqlKeywords : List String :=
  ["SELECT", "WITH", "FROM", "WHERE", "GROUP", "ORDER", "HAVING", "JOIN"]

/-- Per-line test written from the words of claim C7 (for comparison with
the source): keep a line when it begins with or contains one of the eight
SQL leading keywords, case-insensitively. -/
def isSqlLineClaim (stripped : String) : Bool :=
  claimSqlKeywords.any (fun k =>
    k.data.isPrefixOf (upperChars stripped.data) ||
      containsSubstr k.data (upperChars stripped.data))

/-- Extraction as described by claim C7, differing from the source only in
the per-line keyword test. -/
def keptSqlLinesClaim (response : String) : List String :=
  (splitLines (pyStrip response)).filterMap (fun l =>
    if isSqlLineClaim (pyStrip l) then some (pyStrip l) else none)

/-- Extraction as described by claim C7: keep qualifying lines per the
eight-keyword test, join with single spaces, full raw response when no
line qualifies. -/
def extractSqlFromResponseClaim (response : String) : String :=
  match keptSqlLinesClaim response with
  | [] => pyStrip response
  | ls => joinWith " " ls

/-- Counterexample to C7: in the source, a line merely containing GROUP
(without beginning with any start keyword and without containing SELECT,
FROM, WHERE or JOIN) is NOT kept — the containment list is only
SELECT, FROM, WHERE, JOIN.  On the two-line response below the claimed
extraction keeps the second line, while the code keeps nothing and falls
back to the entire raw response. -/
theorem c7_counterexample :
    extractSqlFromResponse "hello\nuse GROUP x" = "hello\nuse GROUP x" ∧
    extractSqlFromResponseClaim "hello\nuse GROUP x" = "use GROUP x" ∧
    extractSqlFromResponse "hello\nuse GROUP x" ≠
      extractSqlFromResponseClaim "hello\nuse GROUP x" := by
  exact ⟨rfl, rfl, by decide⟩

/-- C7 amended: the extraction scans the stripped response line by line;
a line is kept exactly when its stripped text is nonempty and either its
uppercased text begins with one of SELECT, WITH, FROM, WHERE, GROUP,
ORDER, HAVING, or its uppercased text contains one of SELECT, FROM,
WHERE, JOIN as a substring; the kept (stripped) lines are joined with
single spaces, and when no line qualifies the entire stripped response is
returned as the candidate. -/
theorem c7_extraction_characterization (response : String) :
    (keptSqlLines response = [] →
      extractSqlFromResponse response = pyStrip response) ∧
    (keptSqlLines response ≠ [] →
      extractSqlFromResponse response = joinWith " " (keptSqlLines response)) ∧
    (∀ l : String, isSqlLine l = true ↔
      (l.data ≠ [] ∧
        ((∃ kw, kw ∈ sqlStartKeywords ∧ ∃ t, kw.data ++ t = upperChars l.data) ∨
          (∃ kw, kw ∈ sqlContainKeywords ∧
            ∃ pre post, upperChars l.data = pre ++ kw.data ++ post)))) := by
  refine ⟨?_, ?_, ?_⟩
  · intro hk
    simp [extractSqlFromResponse, hk]
  · intro hk
    unfold extractSqlFromResponse
    cases hke : keptSqlLines response with
    | nil => exact absurd hke hk
    | cons a as => rfl
  · intro l
    simp only [isSqlLine, Bool.and_eq_true, Bool.or_eq_true, List.any_eq_true,
      isPrefixOf_true_iff, containsSubstr_true_iff, Bool.not_eq_true',
      List.isEmpty_eq_false]

/-- Witness for amended C7: qualifying lines of a mixed response are
stripped and joined with single spaces. -/
theorem c7_extraction_characterization_witness :
    extractSqlFromResponse "Here is the query:\nSELECT *\nFROM t" =
      "SELECT * FROM t" :=
  ((c7_extraction_characterization "Here is the query:\nSELECT *\nFROM t").2.1
    (by decide)).trans rfl

theorem lastN_le_length (n : Nat) (l : List α) : (lastN n l).length ≤ n := by
  simp only [lastN, List.length_drop]
  omega

theorem lastN_idem (n : Nat) (l : List α) : lastN n (lastN n l) = lastN n l := by
  have h := lastN_le_length n l
  show (lastN n l).drop ((lastN n l).length - n) = lastN n l
  rw [Nat.sub_eq_zero_of_le h, List.drop_zero]

theorem lastN_eq_nil_iff (n : Nat) (l : List α) (hn : 0 < n) :
    lastN n l = [] ↔ l = [] := by
  constructor
  · intro h
    have hlen := List.drop_eq_nil_iff.mp h
    have : l.length = 0 := by omega
    exact List.length_eq_zero.mp this
  · rintro rfl
    simp [lastN]

/-- C8: the rendered prompt context depends only on the most recent three
entries (so its length is bounded no matter how long the history grows,
given the fixed per-entry truncation), each prior outcome summary is cut
at 200 characters, and an empty history — in particular the history right
after clearing — renders as the canonical text rather than an error. -/
theorem c8_context_window_and_truncation (hist : List Exchange) :
    formatConversationContext hist = formatConversationContext (lastN 3 hist) ∧
    (lastN 3 hist).length ≤ 3 ∧
    formatConversationContext [] = "No previous conversation." ∧
    formatConversationContext (clearConversationHistory hist) =
      "No previous conversation." ∧
    (∀ e, e ∈ hist → (strTake 200 e.response).data.length ≤ 200) := by
  refine ⟨?_, lastN_le_length 3 hist, rfl, rfl, ?_⟩
  · by_cases h : hist = []
    · subst h
      rfl
    · have h2 : lastN 3 hist ≠ [] := fun hc =>
        h ((lastN_eq_nil_iff 3 hist (by omega)).mp hc)
      simp only [formatConversationContext, lastN_idem, List.isEmpty_iff, h, h2,
        if_false]
  · intro e _
    simp only [strTake, List.length_take]
    omega

/-- Witness for C8: with four entries only the last three are rendered,
and clearing yields the canonical empty-history text. -/
theorem c8_context_window_and_truncation_witness :
    formatConversationContext
        [⟨"q1", "s1", "r1", 1⟩, ⟨"q2", "s2", "r2", 1⟩, ⟨"q3", "s3", "r3", 1⟩,
          ⟨"q4", "s4", "r4", 1⟩] =
      formatConversationContext
        [⟨"q2", "s2", "r2", 1⟩, ⟨"q3", "s3", "r3", 1⟩, ⟨"q4", "s4", "r4", 1⟩] ∧
    formatConversationContext
        (clearConversationHistory
          [⟨"q1", "s1", "r1", 1⟩, ⟨"q2", "s2", "r2", 1⟩, ⟨"q3", "s3", "r3", 1⟩,
            ⟨"q4", "s4", "r4", 1⟩]) = "No previous conversation." ∧
    (strTake 200 (Exchange.mk "q4" "s4" "r4" 1).response).data.length ≤ 200 :=
  have h := c8_context_window_and_truncation
    [⟨"q1", "s1", "r1", 1⟩, ⟨"q2", "s2", "r2", 1⟩, ⟨"q3", "s3", "r3", 1⟩,
      ⟨"q4", "s4", "r4", 1⟩]
  ⟨h.1, h.2.2.2.1, h.2.2.2.2 ⟨"q4", "s4", "r4", 1⟩ (by simp)⟩

/-- C9: with any required configuration field empty or absent, the manager
is unconfigured and execute_query rejects every statement — whatever its
content and whatever the backend would do — with the distinct
configuration error, which differs from every safety-classification
message; the backend is never consulted. -/
theorem c9_unconfigured_rejects_all (cfg : DbConfig)
    (backend : String → Except String Table) (q : String)
    (h : truthy cfg.database = false ∨ truthy cfg.user = false ∨
      truthy cfg.password = false) :
    executeQuery cfg backend q = Except.error configErrMsg ∧
    configErrMsg ≠ "Query must start with SELECT or WITH" ∧
    (∀ kw, kw ∈ forbiddenKeywords → configErrMsg ≠ dbForbiddenMsg kw ∧
      configErrMsg ≠ forbiddenMsg kw) := by
  have hc : isConfiguredOf cfg = false := by
    rcases h with h | h | h <;>
      simp [isConfiguredOf, missingFields, requiredFields, fieldValue, h]
  refine ⟨?_, by decide, by decide⟩
  simp [executeQuery, hc]

/-- Witness for C9: a configuration missing only the password rejects a
plain SELECT with the configuration error. -/
theorem c9_unconfigured_rejects_all_witness :
    executeQuery ⟨"localhost", 5432, some "mydb", some "admin", none, "prefer"⟩
        (fun _ => Except.ok [1]) "SELECT 1" = Except.error configErrMsg :=
  (c9_unconfigured_rejects_all ⟨"localhost", 5432, some "mydb", some "admin", none,
    "prefer"⟩ (fun _ => Except.ok [1]) "SELECT 1" (Or.inr (Or.inr rfl))).1

theorem assistantPart_mem (e : Exchange) : ∀ (hist : List Exchange) (i : Nat),
    e ∈ hist → assistantPart e ∈ contextPartsFrom i hist := by
  intro hist
  induction hist with
  | nil => intro i h; exact absurd h (List.not_mem_nil e)
  | cons a rest ih =>
    intro i h
    rcases List.mem_cons.mp h with rfl | hmem
    · simp [contextPartsFrom]
    · simp only [contextPartsFrom, List.mem_cons]
      exact Or.inr (Or.inr (Or.inr (ih (i + 1) hmem)))

/-- C10: every entry of the rendered history contributes an assistant line
that ends with the ellipsis marker, and the marker is appended
unconditionally: when the outcome summary is within the 200-character cap
the line is exactly the untruncated summary followed by the marker, so the
marker never indicates that truncation occurred. -/
theorem c10_ellipsis_unconditional (hist : List Exchange) (e : Exchange)
    (i : Nat) (h : e ∈ hist) :
    assistantPart e ∈ contextPartsFrom i hist ∧
    (∃ pre : List Char, (assistantPart e).data = pre ++ "...".data) ∧
    (e.response.data.length ≤ 200 →
      assistantPart e = "  Assistant: " ++ e.response ++ "...") := by
  refine ⟨assistantPart_mem e hist i h, ?_, ?_⟩
  · exact ⟨("  Assistant: " ++ strTake 200 e.response).data, rfl⟩
  · intro hle
    have ht : strTake 200 e.response = e.response := by
      show String.mk (e.response.data.take 200) = e.response
      rw [List.take_of_length_le hle]
    rw [assistantPart, ht]

/-- Witness for C10: a two-character outcome summary, far below the cap,
still renders with the trailing ellipsis marker. -/
theorem c10_ellipsis_unconditional_witness :
    assistantPart ⟨"q", "", "ok", 1⟩ ∈ contextPartsFrom 1 [⟨"q", "", "ok", 1⟩] ∧
    assistantPart ⟨"q", "", "ok", 1⟩ = "  Assistant: ok..." :=
  have h := c10_ellipsis_unconditional [⟨"q", "", "ok", 1⟩] ⟨"q", "", "ok", 1⟩ 1
    (by simp)
  ⟨h.1, (h.2.2 (by decide)).trans rfl⟩

end DashBoard
